import Mathlib

set_option maxRecDepth 100000

/-!
Verification of the perplexity-mcp tool-execution pipeline.

The development shallowly embeds the Rust sources of the repository:
  crates/similarity_cache/src/similarity_cache.rs   (cache data model, passthrough cache)
  crates/usage_reporter/src/usage_reporter.rs       (usage metrics data model)
  crates/perplexity_mcp_tools/src/perplexity_mcp_tools.rs
      (cache-aware API gateway, standard formatter, four tool variants)
  crates/perplexity_mcp_tools/src/lib.rs
      (cache-free API gateway, deep-research tool and formatter)

JSON values (serde_json::Value) are modelled by the inductive `Json`;
JSON numbers (f64) and similarity scores (f32) are modelled by rationals,
which preserves every comparison the code performs.  Asynchronous effects
(the HTTP transport, the environment credential, the injected cache and
reporter collaborators) are modelled by explicit environments: each
fallible collaborator outcome is an input, and the functions return the
resulting value together with a trace of the effects performed.
-/

/-- Model of serde_json::Value. -/
inductive Json where
  | null : Json
  | bool : Bool → Json
  | num : ℚ → Json
  | str : String → Json
  | arr : List Json → Json
  | obj : List (String × Json) → Json

/-- Value::get on an object: first field with the given key; None on
non-objects (serde_json::Value::get). -/
def Json.get : Json → String → Option Json
  | .obj fields, k => fields.lookup k
  | _, _ => none

/-- The serde_json Index impl used by value[key]: field value, or Null when
absent or when the value is not an object. -/
def Json.index (j : Json) (k : String) : Json :=
  (j.get k).getD .null

/-- The serde_json Index impl used by value[i]: array element, or Null when
out of range or when the value is not an array. -/
def Json.indexNat : Json → Nat → Json
  | .arr xs, i => (xs.get? i).getD .null
  | _, _ => .null

/-- Value::as_str. -/
def Json.asStr : Json → Option String
  | .str s => some s
  | _ => none

/-- Value::as_array. -/
def Json.asArr : Json → Option (List Json)
  | .arr xs => some xs
  | _ => none

/-- Value::as_i64: numbers with denominator one (integral doubles). -/
def Json.asInt : Json → Option ℤ
  | .num q => if q.den = 1 then some q.num else none
  | _ => none

/-- Value::as_u64: nonnegative integral numbers. -/
def Json.asU64 : Json → Option ℕ
  | .num q => if q.den = 1 ∧ 0 ≤ q.num then some q.num.toNat else none
  | _ => none

/-- Index-assignment value[key] = v on an object: replace the first binding
of the key, or append a fresh one.  (The code only ever applies it to
objects.) -/
def setFieldList : List (String × Json) → String → Json → List (String × Json)
  | [], k, v => [(k, v)]
  | (k₀, v₀) :: fs, k, v =>
      if k₀ = k then (k, v) :: fs else (k₀, v₀) :: setFieldList fs k v

/-- value[key] = v (serde_json IndexMut on an object). -/
def Json.setField : Json → String → Json → Json
  | .obj fs, k, v => .obj (setFieldList fs k v)
  | j, _, _ => j

/-- Model of Rust str::contains: the pattern occurs contiguously in the
string. -/
def strContains (s pat : String) : Prop :=
  pat.data <:+: s.data

instance (s pat : String) : Decidable (strContains s pat) :=
  List.decidableInfix pat.data s.data

lemma strContains_of_parts (pre mid post s : String)
    (h : s.data = pre.data ++ (mid.data ++ post.data)) : strContains s mid := by
  exact ⟨pre.data, post.data, by rw [h]; simp⟩

/-- similarity_cache::CacheQuery. -/
structure CacheQuery where
  action : String
  text : String
  params : Option Json
  embedding : List ℚ
  results : Json

/-- similarity_cache::Similarity (the f32 score is modelled by a rational). -/
structure Similarity where
  query : CacheQuery
  score : ℚ

/-- The SimilarityCache trait: an implementation carries a state type, and
store and similarities are state transformers returning anyhow::Result
values.  The Rust trait objects are injected collaborators, so the gateway
below is parametric in an implementation. -/
structure CacheImpl (σ : Type) where
  store : σ → CacheQuery → Except String Unit × σ
  similarities : σ → CacheQuery → Except String (List Similarity) × σ

/-- similarity_cache::PassthroughSimilarityCache: stores nothing, always
returns Ok with an empty similarity list. -/
def PassthroughSimilarityCache : CacheImpl Unit where
  store := fun s _ => (.ok (), s)
  similarities := fun s _ => (.ok [], s)

/-- usage_reporter::Usage. -/
structure Usage where
  completion_tokens : ℕ
  prompt_tokens : ℕ
  total_tokens : ℕ

/-- usage_reporter::UsageReport. -/
structure UsageReport where
  model : String
  usage : Usage

/-- Rendering of a Json value, standing in for the debug formatting of
serde_json values used by the gateway to build the cache key text.  The
gateway uses the rendered text only as an opaque key, so no theorem
depends on the exact output shape. -/
def Json.debugRender : Json → String
  | .null => "Null"
  | .bool b => "Bool(" ++ toString b ++ ")"
  | .num q => "Number(" ++ toString q ++ ")"
  | .str s => "String(" ++ s ++ ")"
  | .arr xs =>
      "Array [" ++
        String.intercalate ", "
          (xs.attach.map fun x => Json.debugRender x.1)
        ++ "]"
  | .obj fs =>
      "Object \x7b" ++
        String.intercalate ", "
          (fs.attach.map fun kv => kv.1.1 ++ ": " ++ Json.debugRender kv.1.2)
        ++ "\x7d"
decreasing_by
  · calc sizeOf x.1 < sizeOf xs := List.sizeOf_lt_of_mem x.2
      _ < sizeOf (Json.arr xs) := by simp
  · calc sizeOf kv.1.2 < sizeOf kv.1 := by cases kv.1 with | mk a b => simp
      _ < sizeOf fs := List.sizeOf_lt_of_mem kv.2
      _ < sizeOf (Json.obj fs) := by simp

/-- choices[0].message.content as a string, the required payload field
both formatters extract first. -/
def extractContent (response_body : Json) : Option String :=
  ((((response_body.index "choices").indexNat 0).index "message").index
    "content").asStr

/-- perplexity_mcp_tools.rs format_response_with_references.  The same
function appears verbatim in lib.rs and in src/main.rs. -/
def format_response_with_references (response_body : Json) :
    Except String String :=
  match extractContent response_body with
  | none => .error "Failed to extract content from response"
  | some content =>
    match (response_body.get "citations").bind Json.asArr with
    | some citations =>
      if citations.isEmpty then .ok content
      else
        .ok (content ++ "\n\nReferences:\n" ++
          String.intercalate "\n" (citations.enum.map fun ic =>
            "[" ++ toString (ic.1 + 1) ++ "]: " ++ (ic.2.asStr.getD "Unknown URL")))
    | none => .ok content

/-- Outcomes of the external collaborators of one gateway call: the
credential lookup in the environment, and the combined outcome of the
HTTPS send plus JSON parse of the response body. -/
structure RemoteEnv where
  apiKey : Option String
  responseJson : Except String Json

/-- Effects performed by one gateway call. -/
structure GatewayTrace where
  similaritiesCalled : Bool
  credentialLookedUp : Bool
  remoteCalled : Bool
  requestBody : Option Json
  storeCalls : List CacheQuery

/-- Result of one gateway call: the anyhow::Result value, the cache state
after the call, and the trace of performed effects. -/
structure GatewayResult (σ : Type) where
  result : Except String Json
  state : σ
  trace : GatewayTrace

/-- The CacheQuery candidate built at the top of call_perplexity_api:
a placeholder single-dimension zero embedding, the debug rendering of the
messages as text, and params holding model and recency filter. -/
def mkCacheQuery (model : String) (messages : Json)
    (search_recency_filter : Option String) : CacheQuery where
  action := "perplexity_api_call"
  text := messages.debugRender
  params := some (Json.obj
    [("model", .str model),
     ("search_recency_filter",
        match search_recency_filter with
        | some f => .str f
        | none => .null)])
  embedding := [0]
  results := .null

/-- The cache-hit check of call_perplexity_api: look only at the first
similarity, and use its stored results when its score strictly exceeds
0.95. -/
def hitResult (similarities : List Similarity) : Option Json :=
  match similarities with
  | [] => none
  | similar_query :: _ =>
      if similar_query.score > 0.95 then some similar_query.query.results
      else none

/-- The outbound request body of call_perplexity_api: model and messages,
plus search_recency_filter when provided. -/
def requestBodyFor (model : String) (messages : Json)
    (search_recency_filter : Option String) : Json :=
  match search_recency_filter with
  | some filter =>
      (Json.obj [("model", .str model), ("messages", messages)]).setField
        "search_recency_filter" (.str filter)
  | none => Json.obj [("model", .str model), ("messages", messages)]

/-- perplexity_mcp_tools.rs call_perplexity_api, parametric in the injected
SimilarityCache implementation.  The sequence is: build the candidate
query; ask the cache for similarities (propagating a lookup error); return
the first result when it scores above the hit threshold; otherwise look up
the credential, send the request, parse the response, store the populated
candidate ignoring the store outcome, and return the parsed payload. -/
def call_perplexity_api {σ : Type} (cache : CacheImpl σ) (env : RemoteEnv)
    (st : σ) (model : String) (messages : Json)
    (search_recency_filter : Option String) : GatewayResult σ :=
  match cache.similarities st (mkCacheQuery model messages search_recency_filter) with
  | (.error e, st') => ⟨.error e, st', ⟨true, false, false, none, []⟩⟩
  | (.ok similarities, st') =>
    match hitResult similarities with
    | some results => ⟨.ok results, st', ⟨true, false, false, none, []⟩⟩
    | none =>
      match env.apiKey with
      | none =>
          ⟨.error "PERPLEXITY_API_KEY not set in environment", st',
            ⟨true, true, false, none, []⟩⟩
      | some _key =>
        match env.responseJson with
        | .error e =>
            ⟨.error e, st',
              ⟨true, true, true,
                some (requestBodyFor model messages search_recency_filter), []⟩⟩
        | .ok response_json =>
            ⟨.ok response_json,
              (cache.store st'
                { mkCacheQuery model messages search_recency_filter with
                    results := response_json }).2,
              ⟨true, true, true,
                some (requestBodyFor model messages search_recency_filter),
                [{ mkCacheQuery model messages search_recency_filter with
                    results := response_json }]⟩⟩

/-- context_server::ToolContent. -/
inductive ToolContent where
  | text : String → ToolContent

/-- Result of one tool execution: the anyhow::Result value, the cache
state after the call, the gateway trace, and the usage reports handed to
the usage reporter. -/
structure ExecResult (σ : Type) where
  result : Except String (List ToolContent)
  state : σ
  trace : GatewayTrace
  usageReports : List UsageReport

/-- The trace of a tool execution that fails validation before reaching
the gateway: nothing was called. -/
def emptyTrace : GatewayTrace :=
  ⟨false, false, false, none, []⟩

/-- The usage block each tool reports after a successful gateway call:
present only when the payload carries a usage object with all three token
counts and a model string. -/
def usageReportOf (response_body : Json) : Option UsageReport :=
  match response_body.get "usage", (response_body.get "model").bind Json.asStr with
  | some usage, some model =>
    match (usage.get "completion_tokens").bind Json.asU64,
          (usage.get "prompt_tokens").bind Json.asU64,
          (usage.get "total_tokens").bind Json.asU64 with
    | some completion_tokens, some prompt_tokens, some total_tokens =>
        some ⟨model, ⟨completion_tokens, prompt_tokens, total_tokens⟩⟩
    | _, _, _ => none
  | _, _ => none

/-- The messages array shared by the four standard tools: a single user
message holding the prompt. -/
def userMessages (prompt : String) : Json :=
  Json.arr [Json.obj [("role", .str "user"), ("content", .str prompt)]]

/-- SearchTool prompt construction: one wording per detail level, every
unrecognized level falling back to the normal wording. -/
def searchPrompt (query detail_level : String) : String :=
  match detail_level with
  | "brief" => "Provide a brief, concise answer to: " ++ query
  | "detailed" =>
      "Provide a comprehensive, detailed analysis of: " ++ query ++
        ". Include relevant examples, context, and supporting information where applicable."
  | _ =>
      "Provide a clear, balanced answer to: " ++ query ++
        ". Include key points and relevant context."

/-- SearchTool::execute (perplexity_mcp_tools.rs): validate the query,
read detail_level with default normal and the optional recency filter,
build the prompt, call the gateway, report usage best-effort, format. -/
def SearchTool.execute {σ : Type} (cache : CacheImpl σ) (env : RemoteEnv)
    (st : σ) (arguments : Option Json) : ExecResult σ :=
  match arguments with
  | none => ⟨.error "Missing arguments", st, emptyTrace, []⟩
  | some args =>
    match (args.get "query").bind Json.asStr with
    | none => ⟨.error "Missing or invalid query", st, emptyTrace, []⟩
    | some query =>
      match call_perplexity_api cache env st "sonar-reasoning-pro"
          (userMessages (searchPrompt query
            (((args.get "detail_level").bind Json.asStr).getD "normal")))
          ((args.get "search_recency_filter").bind Json.asStr) with
      | ⟨.error e, st', tr⟩ => ⟨.error e, st', tr, []⟩
      | ⟨.ok response_body, st', tr⟩ =>
        match format_response_with_references response_body with
        | .error e => ⟨.error e, st', tr, (usageReportOf response_body).toList⟩
        | .ok content =>
            ⟨.ok [.text content], st', tr, (usageReportOf response_body).toList⟩

/-- GetDocumentationTool prompt construction (dedented formatdoc text). -/
def getDocumentationPrompt (query context : String) : String :=
  "Provide comprehensive documentation and usage examples for " ++ query ++
    ". " ++
    (if context.isEmpty then "" else "Focus on: " ++ context ++ ". ") ++
    " Include:\n1. Basic overview and purpose\n2. Key features and capabilities\n3. Installation/setup if applicable\n4. Common usage examples\n5. Best practices\n6. Common pitfalls to avoid\n7. Links to official documentation if available"

/-- GetDocumentationTool::execute (perplexity_mcp_tools.rs). -/
def GetDocumentationTool.execute {σ : Type} (cache : CacheImpl σ)
    (env : RemoteEnv) (st : σ) (arguments : Option Json) : ExecResult σ :=
  match arguments with
  | none => ⟨.error "Missing arguments", st, emptyTrace, []⟩
  | some args =>
    match (args.get "query").bind Json.asStr with
    | none => ⟨.error "Missing or invalid query", st, emptyTrace, []⟩
    | some query =>
      match call_perplexity_api cache env st "sonar-reasoning-pro"
          (userMessages (getDocumentationPrompt query
            (((args.get "context").bind Json.asStr).getD "")))
          none with
      | ⟨.error e, st', tr⟩ => ⟨.error e, st', tr, []⟩
      | ⟨.ok response_body, st', tr⟩ =>
        match format_response_with_references response_body with
        | .error e => ⟨.error e, st', tr, (usageReportOf response_body).toList⟩
        | .ok content =>
            ⟨.ok [.text content], st', tr, (usageReportOf response_body).toList⟩

/-- FindApisTool prompt construction (dedented formatdoc text). -/
def findApisPrompt (requirement context : String) : String :=
  "Find and evaluate APIs that could be used for: " ++ requirement ++ ". " ++
    (if context.isEmpty then "" else "Context: " ++ context ++ ". ") ++
    " For each API, provide:\n1. Name and brief description\n2. Key features and capabilities\n3. Pricing model (if available)\n4. Integration complexity\n5. Documentation quality\n6. Community support and popularity\n7. Any potential limitations or concerns\n8. Code example of basic usage"

/-- FindApisTool::execute (perplexity_mcp_tools.rs). -/
def FindApisTool.execute {σ : Type} (cache : CacheImpl σ) (env : RemoteEnv)
    (st : σ) (arguments : Option Json) : ExecResult σ :=
  match arguments with
  | none => ⟨.error "Missing arguments", st, emptyTrace, []⟩
  | some args =>
    match (args.get "requirement").bind Json.asStr with
    | none => ⟨.error "Missing or invalid requirement", st, emptyTrace, []⟩
    | some requirement =>
      match call_perplexity_api cache env st "sonar-reasoning-pro"
          (userMessages (findApisPrompt requirement
            (((args.get "context").bind Json.asStr).getD "")))
          none with
      | ⟨.error e, st', tr⟩ => ⟨.error e, st', tr, []⟩
      | ⟨.ok response_body, st', tr⟩ =>
        match format_response_with_references response_body with
        | .error e => ⟨.error e, st', tr, (usageReportOf response_body).toList⟩
        | .ok content =>
            ⟨.ok [.text content], st', tr, (usageReportOf response_body).toList⟩

/-- CheckDeprecatedCodeTool prompt construction (dedented formatdoc text). -/
def checkDeprecatedCodePrompt (code technology : String) : String :=
  "Analyze this code for deprecated features or patterns" ++
    (if technology.isEmpty then "" else " in " ++ technology) ++
    ":\n\n" ++ code ++
    "\n\nPlease provide:\n1. Identification of any deprecated features, methods, or patterns\n2. Current recommended alternatives\n3. Migration steps if applicable\n4. Impact of the deprecation\n5. Timeline of deprecation if known\n6. Code examples showing how to update to current best practices"

/-- CheckDeprecatedCodeTool::execute (perplexity_mcp_tools.rs). -/
def CheckDeprecatedCodeTool.execute {σ : Type} (cache : CacheImpl σ)
    (env : RemoteEnv) (st : σ) (arguments : Option Json) : ExecResult σ :=
  match arguments with
  | none => ⟨.error "Missing arguments", st, emptyTrace, []⟩
  | some args =>
    match (args.get "code").bind Json.asStr with
    | none => ⟨.error "Missing or invalid code", st, emptyTrace, []⟩
    | some code =>
      match call_perplexity_api cache env st "sonar-reasoning-pro"
          (userMessages (checkDeprecatedCodePrompt code
            (((args.get "technology").bind Json.asStr).getD "")))
          none with
      | ⟨.error e, st', tr⟩ => ⟨.error e, st', tr, []⟩
      | ⟨.ok response_body, st', tr⟩ =>
        match format_response_with_references response_body with
        | .error e => ⟨.error e, st', tr, (usageReportOf response_body).toList⟩
        | .ok content =>
            ⟨.ok [.text content], st', tr, (usageReportOf response_body).toList⟩

/-- DeepResearchTool prompt construction (dedented formatdoc text). -/
def deepResearchPrompt (topic depth focus time_constraint citation_style :
    String) : String :=
  "Conduct a deep research investigation on: " ++ topic ++
    "\n\nPlease approach this as an expert researcher would, conducting multiple searches and analyzing diverse sources to provide comprehensive information. Your research should be " ++
    depth ++
    (if focus.isEmpty then "" else ", focused on " ++ focus) ++
    (if time_constraint.isEmpty then ""
     else ". Consider the time period: " ++ time_constraint) ++
    "\n\nWhen preparing your report:\n1. Start with an executive summary of key findings\n2. Organize information in a logical structure with headings and subheadings\n3. Include critical analysis and multiple perspectives\n4. Cite all sources using " ++
    citation_style ++
    " format\n5. Prioritize recent, peer-reviewed, and authoritative sources\n6. Identify any gaps in existing research\n7. Conclude with practical implications and future directions"

/-- The fixed system message of the deep-research request. -/
def deepResearchSystemMessage : String :=
  "You are a Deep Research agent capable of conducting comprehensive research by performing multiple searches. Your goal is to create an in-depth report that combines information from hundreds of sources, analyzes contradictions, and presents a complete picture of the topic."

/-- The deep-research outbound request body: fixed model, system plus user
messages, fixed sampling parameters, and a recency filter derived from the
free-text time constraint. -/
def deepResearchRequestBody (topic depth focus time_constraint
    citation_style : String) : Json :=
  let base := Json.obj
    [("model", .str "sonar-deep-research"),
     ("messages", Json.arr
       [Json.obj [("role", .str "system"),
                  ("content", .str deepResearchSystemMessage)],
        Json.obj [("role", .str "user"),
                  ("content", .str (deepResearchPrompt topic depth focus
                     time_constraint citation_style))]]),
     ("temperature", .num 0.2),
     ("max_tokens", .num 4000),
     ("search_iterations", .num 10)]
  if strContains time_constraint "recent" ∨ strContains time_constraint "latest"
  then base.setField "search_recency_filter" (.str "week")
  else if strContains time_constraint "year"
  then base.setField "search_recency_filter" (.str "month")
  else base

/-- One APA-style reference paragraph of format_deep_research_response.
Entries carrying both a title and a url string render authors (joined and
followed by a dot when nonempty), date (parenthesised and followed by a
dot when nonempty), then the literal skeleton with the publisher inside
parentheses, the title between asterisks and the url; all other entries
render a numbered line from the string form with fallback Unknown source. -/
def apaReference (i : ℕ) (citation : Json) : String :=
  match (citation.get "title").bind Json.asStr,
        (citation.get "url").bind Json.asStr with
  | some title, some url =>
      "[" ++ toString (i + 1) ++ "] " ++
        (let authors := (((citation.get "authors").bind Json.asArr).map fun as =>
            String.intercalate ", " (as.filterMap Json.asStr)).getD ""
         if authors.isEmpty then "" else authors ++ ". ") ++
        (let date := ((citation.get "date").bind Json.asStr).getD ""
         if date.isEmpty then "" else "(" ++ date ++ "). ") ++
        " (" ++ (((citation.get "publisher").bind Json.asStr).getD "") ++
        "). *" ++ title ++ "*. " ++ url ++ "\n\n"
  | _, _ =>
      "[" ++ toString (i + 1) ++ "] " ++ (citation.asStr.getD "Unknown source")
        ++ "\n\n"

/-- The Source Assessment table appended after the references: category
header, total source count, and the search iteration count when the
payload carries one. -/
def sourceAssessment (response_body : Json) (citations : List Json) : String :=
  "\n## Source Assessment\n\n| Category | Metrics |\n|----------|--------|\n| Total Sources | "
    ++ toString citations.length ++ " |\n" ++
    (match (response_body.get "search_info").bind
        (fun si => (si.get "iterations").bind Json.asInt) with
     | some iterations => "| Search Iterations | " ++ toString iterations ++ " |\n"
     | none => "")

/-- lib.rs format_deep_research_response. -/
def format_deep_research_response (response_body : Json)
    (citation_style : String) : Except String String :=
  match extractContent response_body with
  | none => .error "Failed to extract content from response"
  | some content =>
    match (response_body.get "citations").bind Json.asArr with
    | some citations =>
      if citations.isEmpty then .ok content
      else
        .ok (content ++ "\n" ++
          (if citation_style = "apa" then
            "\n\n## References\n\n" ++
              String.join (citations.enum.map fun ic => apaReference ic.1 ic.2)
           else
            "\n\n## Sources\n\n" ++
              String.join (citations.enum.map fun ic =>
                "[" ++ toString (ic.1 + 1) ++ "]: " ++
                  (ic.2.asStr.getD "Unknown URL") ++ "\n")) ++
          sourceAssessment response_body citations)
    | none => .ok content

/-- Effects performed by a cache-free remote call (the deep-research tool
and the lib.rs gateway). -/
structure RemoteTrace where
  credentialLookedUp : Bool
  remoteCalled : Bool
  requestBody : Option Json

/-- Result of one deep-research tool execution. -/
structure DeepExecResult where
  result : Except String (List ToolContent)
  trace : RemoteTrace

/-- DeepResearchTool::execute (lib.rs): validate the topic; read depth
(default comprehensive), focus, time_constraint and citation_style
(default apa); build the request body with fixed sampling parameters and
the recency heuristics; look up the credential; send; parse; format with
the style-aware formatter. -/
def DeepResearchTool.execute (env : RemoteEnv) (arguments : Option Json) :
    DeepExecResult :=
  match arguments with
  | none => ⟨.error "Missing arguments", ⟨false, false, none⟩⟩
  | some args =>
    match (args.get "topic").bind Json.asStr with
    | none => ⟨.error "Missing or invalid research topic", ⟨false, false, none⟩⟩
    | some topic =>
      match env.apiKey with
      | none =>
          ⟨.error "PERPLEXITY_API_KEY not set in environment",
            ⟨true, false, none⟩⟩
      | some _key =>
        match env.responseJson with
        | .error e =>
            ⟨.error e,
              ⟨true, true, some (deepResearchRequestBody topic
                (((args.get "depth").bind Json.asStr).getD "comprehensive")
                (((args.get "focus").bind Json.asStr).getD "")
                (((args.get "time_constraint").bind Json.asStr).getD "")
                (((args.get "citation_style").bind Json.asStr).getD "apa"))⟩⟩
        | .ok response_body =>
          match format_deep_research_response response_body
              (((args.get "citation_style").bind Json.asStr).getD "apa") with
          | .error e =>
              ⟨.error e,
                ⟨true, true, some (deepResearchRequestBody topic
                  (((args.get "depth").bind Json.asStr).getD "comprehensive")
                  (((args.get "focus").bind Json.asStr).getD "")
                  (((args.get "time_constraint").bind Json.asStr).getD "")
                  (((args.get "citation_style").bind Json.asStr).getD "apa"))⟩⟩
          | .ok content =>
              ⟨.ok [.text content],
                ⟨true, true, some (deepResearchRequestBody topic
                  (((args.get "depth").bind Json.asStr).getD "comprehensive")
                  (((args.get "focus").bind Json.asStr).getD "")
                  (((args.get "time_constraint").bind Json.asStr).getD "")
                  (((args.get "citation_style").bind Json.asStr).getD "apa"))⟩⟩

/-- lib.rs call_perplexity_api: the cache-free gateway used by the legacy
pipeline.  Credential lookup, request body construction, send, parse. -/
def libCallPerplexityApi (env : RemoteEnv) (model : String) (messages : Json)
    (search_recency_filter : Option String) :
    Except String Json × RemoteTrace :=
  match env.apiKey with
  | none =>
      (.error "PERPLEXITY_API_KEY not set in environment",
        ⟨true, false, none⟩)
  | some _key =>
    match env.responseJson with
    | .error e =>
        (.error e,
          ⟨true, true, some (requestBodyFor model messages search_recency_filter)⟩)
    | .ok response_json =>
        (.ok response_json,
          ⟨true, true, some (requestBodyFor model messages search_recency_filter)⟩)

/-- A cache implementation with a fixed similarity answer, used to
instantiate theorems at concrete inputs. -/
def constCache (sims : List Similarity) : CacheImpl Unit where
  store := fun s _ => (.ok (), s)
  similarities := fun s _ => (.ok sims, s)

/-- A cache implementation whose store always fails, used to instantiate
the store-failure cases at concrete inputs. -/
def failingStoreCache : CacheImpl Unit where
  store := fun s _ => (.error "store failed", s)
  similarities := fun s _ => (.ok [], s)

/-- A concrete stored cache entry whose results field holds a payload. -/
def cachedEntry : CacheQuery :=
  ⟨"perplexity_api_call", "t", none, [0],
    .obj [("choices", .arr [ .obj [("message",
      .obj [("content", .str "cached answer")])]])]⟩

/-- A well-formed response payload: content plus usage block. -/
def okPayload : Json := Json.obj
  [("choices", .arr [ .obj [("message", .obj [("content", .str "fresh answer")])]]),
   ("model", .str "sonar-reasoning-pro"),
   ("usage", .obj [("completion_tokens", .num 3), ("prompt_tokens", .num 2),
                   ("total_tokens", .num 5)])]

/-- A payload that parses as JSON but lacks a string at
choices[0].message.content. -/
def malformedPayload : Json := Json.obj [("unexpected", .str "shape")]

/-- Payload with string content and one structured citation that carries a
url field. -/
def c2Body : Json := Json.obj
  [("choices", .arr [ .obj [("message", .obj [("content", .str "c")])]]),
   ("citations", .arr [ .obj [("url", .str "u")]])]

/-- Payload with string content, one bare string citation and one
structured citation. -/
def c2WitnessBody : Json := Json.obj
  [("choices", .arr [ .obj [("message", .obj [("content", .str "c")])]]),
   ("citations", .arr [ .str "a", .obj []])]

/-- The deep-research example payload of the claim: one fully populated
structured citation without publisher, and one bare string citation. -/
def c3Body : Json := Json.obj
  [("choices", .arr [ .obj [("message", .obj [("content", .str "Research findings")])]]),
   ("citations", .arr
     [ .obj [("title", .str "T1"), ("url", .str "u1"),
             ("authors", .arr [ .str "A"]), ("date", .str "2020")],
       .str "u2"])]

/-- Deep-research payload carrying a search_info iteration count. -/
def c3BodyIter : Json := Json.obj
  [("choices", .arr [ .obj [("message", .obj [("content", .str "R")])]]),
   ("citations", .arr [ .str "u1"]),
   ("search_info", .obj [("iterations", .num 7)])]

/-- C2, counterexample.  The claim conditions the Unknown URL fallback of
the standard formatter on the structured entry having no URL field; the
code renders every non-string citation as Unknown URL, so a structured
citation that does carry url u is still rendered as Unknown URL and not
as u. -/
theorem c2_structured_url_counterexample :
    format_response_with_references c2Body =
      .ok "c\n\nReferences:\n[1]: Unknown URL" ∧
    "c\n\nReferences:\n[1]: Unknown URL" ≠ "c\n\nReferences:\n[1]: u" := by
  exact ⟨rfl, by decide⟩

/-- C2, amended.  For every payload whose choices[0].message.content is a
string, the standard formatter returns that content followed by a
References section with one 1-indexed line per citation when citations is
a non-empty array, rendering each citation by its string form or, for
structured (non-string) entries, the fallback literal Unknown URL
regardless of any URL field; when citations is absent, not an array, or
empty, the content is returned unchanged. -/
theorem c2_standard_formatter (body : Json) (c : String) (cs : List Json)
    (hc : extractContent body = some c) :
    ((body.get "citations").bind Json.asArr = some cs → cs ≠ [] →
      format_response_with_references body =
        .ok (c ++ "\n\nReferences:\n" ++
          String.intercalate "\n" (cs.enum.map fun ic =>
            "[" ++ toString (ic.1 + 1) ++ "]: " ++ (ic.2.asStr.getD "Unknown URL"))))
    ∧ ((body.get "citations").bind Json.asArr = none →
        format_response_with_references body = .ok c)
    ∧ ((body.get "citations").bind Json.asArr = some [] →
        format_response_with_references body = .ok c) := by
  refine ⟨?_, ?_, ?_⟩
  · intro h hne
    cases cs with
    | nil => exact absurd rfl hne
    | cons a t => simp [format_response_with_references, hc, h]
  · intro h
    simp [format_response_with_references, hc, h]
  · intro h
    simp [format_response_with_references, hc, h]

/-- C2, witness: the amended theorem applied to a concrete payload holding
one bare string citation and one structured citation. -/
theorem c2_standard_formatter_witness :
    format_response_with_references c2WitnessBody =
      .ok "c\n\nReferences:\n[1]: a\n[2]: Unknown URL" := by
  have h := (c2_standard_formatter c2WitnessBody "c" [.str "a", .obj []]
    rfl).1 rfl (by simp)
  exact h.trans rfl

/-- C3, counterexample.  The claim states that any missing optional field
of an APA reference is omitted without leaving stray punctuation, and that
the example citation list produces an APA-shaped paragraph for the entry
titled T1, which has no publisher.  The code interpolates the publisher
inside a literal parenthesis pair, so that entry renders with an empty ()
(after a double space), leaving stray punctuation. -/
theorem c3_missing_publisher_counterexample :
    format_deep_research_response c3Body "apa" =
      .ok "Research findings\n\n\n## References\n\n[1] A. (2020).  (). *T1*. u1\n\n[2] u2\n\n\n## Source Assessment\n\n| Category | Metrics |\n|----------|--------|\n| Total Sources | 2 |\n"
    ∧ strContains "[1] A. (2020).  (). *T1*. u1" "()" := by
  exact ⟨rfl, by decide⟩

/-- C3, amended.  For every deep-research payload with string content and
a non-empty citations array, the formatter with style apa emits a
References section containing, for each citation with both title and url,
a paragraph built from optional authors (comma-joined), optional date,
the publisher always interpolated inside literal parentheses (so a missing
publisher leaves an empty pair), required title and required url, missing
authors and date being omitted without stray punctuation, and a numbered
fallback line for entries lacking title or url; for any other style it
emits a flat Sources numbered URL list; in both cases it appends a Source
Assessment table with the total citation count and, when
search_info.iterations is present, the iteration count.  For the two
example citations the output contains the paragraph with the empty
publisher parentheses, a numbered fallback line for the bare string, and
the Total Sources row; with no citations the content is returned
unmodified. -/
theorem c3_deep_research_formatter (body : Json) (c : String)
    (cs : List Json) (style : String) (hc : extractContent body = some c) :
    ((body.get "citations").bind Json.asArr = some cs → cs ≠ [] →
      format_deep_research_response body "apa" =
        .ok (c ++ "\n" ++ ("\n\n## References\n\n" ++
          String.join (cs.enum.map fun ic => apaReference ic.1 ic.2)) ++
          sourceAssessment body cs) ∧
      (style ≠ "apa" →
        format_deep_research_response body style =
          .ok (c ++ "\n" ++ ("\n\n## Sources\n\n" ++
            String.join (cs.enum.map fun ic =>
              "[" ++ toString (ic.1 + 1) ++ "]: " ++
                (ic.2.asStr.getD "Unknown URL") ++ "\n")) ++
            sourceAssessment body cs)))
    ∧ ((body.get "citations").bind Json.asArr = none ∨
        (body.get "citations").bind Json.asArr = some [] →
        format_deep_research_response body style = .ok c)
    ∧ format_deep_research_response c3Body "apa" =
        .ok "Research findings\n\n\n## References\n\n[1] A. (2020).  (). *T1*. u1\n\n[2] u2\n\n\n## Source Assessment\n\n| Category | Metrics |\n|----------|--------|\n| Total Sources | 2 |\n"
    ∧ format_deep_research_response c3BodyIter "ieee" =
        .ok "R\n\n\n## Sources\n\n[1]: u1\n\n## Source Assessment\n\n| Category | Metrics |\n|----------|--------|\n| Total Sources | 1 |\n| Search Iterations | 7 |\n" := by
  refine ⟨?_, ?_, rfl, rfl⟩
  · intro h hne
    constructor
    · cases cs with
      | nil => exact absurd rfl hne
      | cons a t => simp [format_deep_research_response, hc, h]
    · intro hstyle
      cases cs with
      | nil => exact absurd rfl hne
      | cons a t => simp [format_deep_research_response, hc, h, hstyle]
  · rintro (h | h) <;> simp [format_deep_research_response, hc, h]

/-- C3, witness: the amended theorem applied to the example payload with a
non-apa style, yielding the flat Sources list. -/
theorem c3_deep_research_formatter_witness :
    format_deep_research_response c3Body "mla" =
      .ok "Research findings\n\n\n## Sources\n\n[1]: Unknown URL\n[2]: u2\n\n## Source Assessment\n\n| Category | Metrics |\n|----------|--------|\n| Total Sources | 2 |\n" := by
  have h := ((c3_deep_research_formatter c3Body "Research findings"
    [ .obj [("title", .str "T1"), ("url", .str "u1"),
            ("authors", .arr [ .str "A"]), ("date", .str "2020")],
      .str "u2"] "mla" rfl).1 rfl (by simp)).2 (by decide)
  exact h.trans rfl

/-- C1, counterexample.  The claim asserts that an empty similarity list
always leads to a fresh remote call; with the passthrough cache (which
returns Ok with the empty list) and no credential in the environment, the
gateway fails the credential lookup and performs no remote call. -/
theorem c1_below_threshold_counterexample :
    (PassthroughSimilarityCache.similarities ()
        (mkCacheQuery "sonar-reasoning-pro" (Json.arr []) none)).1 = .ok [] ∧
    (call_perplexity_api PassthroughSimilarityCache ⟨none, .error "offline"⟩
        () "sonar-reasoning-pro" (Json.arr []) none).trace.remoteCalled
      = false ∧
    (call_perplexity_api PassthroughSimilarityCache ⟨none, .error "offline"⟩
        () "sonar-reasoning-pro" (Json.arr []) none).result
      = .error "PERPLEXITY_API_KEY not set in environment" := by
  exact ⟨rfl, rfl, rfl⟩

/-- C1, amended.  If the similarity lookup succeeds and its first entry
scores strictly above 0.95, the gateway returns that entry stored results
immediately, with no remote call, no credential lookup and no store; if
the list is empty or the first entry scores at most 0.95, the gateway
always proceeds to the credential lookup and performs a fresh remote call
exactly when the credential is present. -/
theorem c1_cache_hit_policy {σ : Type} (cache : CacheImpl σ) (env : RemoteEnv)
    (st st' : σ) (model : String) (messages : Json) (filter : Option String)
    (sims : List Similarity) (s : Similarity) (rest : List Similarity)
    (hsim : cache.similarities st (mkCacheQuery model messages filter) =
      (.ok sims, st')) :
    (sims = s :: rest → s.score > 0.95 →
      call_perplexity_api cache env st model messages filter =
        ⟨.ok s.query.results, st', ⟨true, false, false, none, []⟩⟩)
    ∧ (sims = s :: rest → s.score ≤ 0.95 →
        (call_perplexity_api cache env st model messages filter).trace.credentialLookedUp
            = true ∧
        (∀ k, env.apiKey = some k →
          (call_perplexity_api cache env st model messages filter).trace.remoteCalled
            = true) ∧
        (env.apiKey = none →
          (call_perplexity_api cache env st model messages filter).trace.remoteCalled
            = false))
    ∧ (sims = [] →
        (call_perplexity_api cache env st model messages filter).trace.credentialLookedUp
            = true ∧
        (∀ k, env.apiKey = some k →
          (call_perplexity_api cache env st model messages filter).trace.remoteCalled
            = true) ∧
        (env.apiKey = none →
          (call_perplexity_api cache env st model messages filter).trace.remoteCalled
            = false)) := by
  refine ⟨?_, ?_, ?_⟩
  · intro he hs
    subst he
    simp [call_perplexity_api, hsim, hitResult, hs]
  · intro he hs
    subst he
    have hns : ¬ s.score > 0.95 := not_lt.mpr hs
    refine ⟨?_, ?_, ?_⟩
    · cases hk : env.apiKey <;>
        cases hr : env.responseJson <;>
          simp [call_perplexity_api, hsim, hitResult, hns, hk, hr]
    · intro k hk
      cases hr : env.responseJson <;>
        simp [call_perplexity_api, hsim, hitResult, hns, hk, hr]
    · intro hk
      simp [call_perplexity_api, hsim, hitResult, hns, hk]
  · intro he
    subst he
    refine ⟨?_, ?_, ?_⟩
    · cases hk : env.apiKey <;>
        cases hr : env.responseJson <;>
          simp [call_perplexity_api, hsim, hitResult, hk, hr]
    · intro k hk
      cases hr : env.responseJson <;>
        simp [call_perplexity_api, hsim, hitResult, hk, hr]
    · intro hk
      simp [call_perplexity_api, hsim, hitResult, hk]

/-- C1, witness: a cache answering with a single 0.97-scored entry makes
the gateway return the stored payload with no remote call and no
credential lookup, in an environment with no credential and a failing
transport. -/
theorem c1_cache_hit_policy_witness :
    call_perplexity_api (constCache [⟨cachedEntry, 0.97⟩])
        ⟨none, .error "offline"⟩ () "m" (Json.arr []) none =
      ⟨.ok cachedEntry.results, (), ⟨true, false, false, none, []⟩⟩ := by
  exact (c1_cache_hit_policy (constCache [⟨cachedEntry, 0.97⟩])
    ⟨none, .error "offline"⟩ () () "m" (Json.arr []) none
    [⟨cachedEntry, 0.97⟩] ⟨cachedEntry, 0.97⟩ [] rfl).1 rfl (by norm_num)

/-- C4, counterexample.  Executing SearchTool with detail_level absent
builds the normal-detail prompt, and the stated default normal does not
appear verbatim anywhere in that prompt text. -/
theorem c4_default_not_verbatim_counterexample :
    ((((SearchTool.execute PassthroughSimilarityCache ⟨some "k", .ok .null⟩ ()
          (some (Json.obj [("query", .str "q")]))).trace.requestBody.getD
        .null).index "messages").indexNat 0).index "content" =
      .str "Provide a clear, balanced answer to: q. Include key points and relevant context."
    ∧ ¬ strContains
        "Provide a clear, balanced answer to: q. Include key points and relevant context."
        "normal" := by
  exact ⟨rfl, by decide⟩

/-- C4, amended.  Executing with an optional argument absent produces
exactly the same execution as passing its stated default explicitly
(Search detail_level normal; DeepResearch depth comprehensive and
citation_style apa); the DeepResearch defaults additionally appear
verbatim in the constructed prompt text, while the Search default normal
only selects the normal-detail wording and does not itself appear in the
prompt. -/
theorem c4_stated_defaults {σ : Type} (cache : CacheImpl σ) (env : RemoteEnv)
    (st : σ) (args args' : Json) (topic focus time_constraint : String) :
    (args.get "query" = args'.get "query" →
     args.get "search_recency_filter" = args'.get "search_recency_filter" →
     (args.get "detail_level").bind Json.asStr = none →
     (args'.get "detail_level").bind Json.asStr = some "normal" →
      SearchTool.execute cache env st (some args) =
        SearchTool.execute cache env st (some args'))
    ∧ (args.get "topic" = args'.get "topic" →
       args.get "focus" = args'.get "focus" →
       args.get "time_constraint" = args'.get "time_constraint" →
       (args.get "depth").bind Json.asStr = none →
       (args'.get "depth").bind Json.asStr = some "comprehensive" →
       (args.get "citation_style").bind Json.asStr = none →
       (args'.get "citation_style").bind Json.asStr = some "apa" →
        DeepResearchTool.execute env (some args) =
          DeepResearchTool.execute env (some args'))
    ∧ strContains
        (deepResearchPrompt topic "comprehensive" focus time_constraint "apa")
        "Your research should be comprehensive"
    ∧ strContains
        (deepResearchPrompt topic "comprehensive" focus time_constraint "apa")
        "Cite all sources using apa format" := by
  refine ⟨?_, ?_, ?_, ?_⟩
  · intro h1 h2 h3 h4
    simp only [SearchTool.execute, h1, h2, h3, h4, Option.getD]
  · intro h1 h2 h3 h4 h5 h6 h7
    simp only [DeepResearchTool.execute, h1, h2, h3, h4, h5, h6, h7, Option.getD]
  · have h1 : ("Your research should be comprehensive" : String).data <:+:
        ("\n\nPlease approach this as an expert researcher would, conducting multiple searches and analyzing diverse sources to provide comprehensive information. Your research should be "
          ++ "comprehensive" : String).data := by decide
    refine h1.trans ⟨("Conduct a deep research investigation on: " ++ topic :
        String).data,
      ((if focus.isEmpty then "" else ", focused on " ++ focus) ++
        (if time_constraint.isEmpty then ""
         else ". Consider the time period: " ++ time_constraint) ++
        "\n\nWhen preparing your report:\n1. Start with an executive summary of key findings\n2. Organize information in a logical structure with headings and subheadings\n3. Include critical analysis and multiple perspectives\n4. Cite all sources using "
        ++ "apa" ++
        " format\n5. Prioritize recent, peer-reviewed, and authoritative sources\n6. Identify any gaps in existing research\n7. Conclude with practical implications and future directions"
        : String).data, ?_⟩
    simp only [deepResearchPrompt, String.data_append, List.append_assoc]
  · have h1 : ("Cite all sources using apa format" : String).data <:+:
        ("\n\nWhen preparing your report:\n1. Start with an executive summary of key findings\n2. Organize information in a logical structure with headings and subheadings\n3. Include critical analysis and multiple perspectives\n4. Cite all sources using "
          ++ "apa" ++
          " format\n5. Prioritize recent, peer-reviewed, and authoritative sources\n6. Identify any gaps in existing research\n7. Conclude with practical implications and future directions"
          : String).data := by decide
    refine h1.trans ⟨("Conduct a deep research investigation on: " ++ topic ++
        "\n\nPlease approach this as an expert researcher would, conducting multiple searches and analyzing diverse sources to provide comprehensive information. Your research should be "
        ++ "comprehensive" ++
        (if focus.isEmpty then "" else ", focused on " ++ focus) ++
        (if time_constraint.isEmpty then ""
         else ". Consider the time period: " ++ time_constraint) : String).data,
      ("" : String).data, ?_⟩
    simp only [deepResearchPrompt, String.data_append, List.append_assoc,
      List.append_nil]

/-- C5, confirmed.  When the cache misses, the credential is present and
the transport response parses as JSON, the gateway call succeeds and
returns the raw payload whatever its shape; when that payload lacks a
string at choices[0].message.content, both formatters fail with the error
naming the failed content extraction. -/
theorem c5_malformed_at_formatting {σ : Type} (cache : CacheImpl σ)
    (env : RemoteEnv) (st st' : σ) (model : String) (messages : Json)
    (filter : Option String) (sims : List Similarity) (k : String) (j : Json)
    (style : String)
    (hsim : cache.similarities st (mkCacheQuery model messages filter) =
      (.ok sims, st'))
    (hmiss : hitResult sims = none)
    (hk : env.apiKey = some k)
    (hresp : env.responseJson = .ok j) :
    (call_perplexity_api cache env st model messages filter).result = .ok j
    ∧ (extractContent j = none →
        format_response_with_references j =
          .error "Failed to extract content from response"
        ∧ format_deep_research_response j style =
          .error "Failed to extract content from response") := by
  constructor
  · simp [call_perplexity_api, hsim, hmiss, hk, hresp]
  · intro hcontent
    constructor <;>
      simp [format_response_with_references, format_deep_research_response,
        hcontent]

/-- C5, witness: a parsed payload without the content field is returned
whole by the gateway and rejected by the standard formatter. -/
theorem c5_malformed_at_formatting_witness :
    (call_perplexity_api PassthroughSimilarityCache
        ⟨some "k", .ok malformedPayload⟩ () "m" (Json.arr []) none).result =
      .ok malformedPayload
    ∧ format_response_with_references malformedPayload =
        .error "Failed to extract content from response" := by
  have h := c5_malformed_at_formatting PassthroughSimilarityCache
    ⟨some "k", .ok malformedPayload⟩ () () "m" (Json.arr []) none [] "k"
    malformedPayload "apa" rfl rfl rfl rfl
  exact ⟨h.1, (h.2 rfl).1⟩

/-- C6, confirmed.  Within one gateway call, store is invoked exactly once
(with the candidate query carrying the parsed response in its results
field) precisely when a remote call was made and its response parsed; it
is never invoked on a cache hit, on a similarity lookup failure, on a
missing credential or on a transport or parse failure; and because the
store outcome is discarded, the gateway returns the response successfully
for every cache implementation, including one whose store fails. -/
theorem c6_store_semantics {σ : Type} (cache : CacheImpl σ) (env : RemoteEnv)
    (st st' : σ) (model : String) (messages : Json) (filter : Option String)
    (sims : List Similarity) (s : Similarity) (rest : List Similarity)
    (k e e' : String) (j : Json) :
    (cache.similarities st (mkCacheQuery model messages filter) =
        (.ok sims, st') → sims = s :: rest → s.score > 0.95 →
      (call_perplexity_api cache env st model messages filter).trace.storeCalls
          = []
      ∧ (call_perplexity_api cache env st model messages filter).trace.remoteCalled
          = false)
    ∧ (cache.similarities st (mkCacheQuery model messages filter) =
          (.error e', st') →
        (call_perplexity_api cache env st model messages filter).trace.storeCalls
            = []
        ∧ (call_perplexity_api cache env st model messages filter).trace.remoteCalled
            = false)
    ∧ (cache.similarities st (mkCacheQuery model messages filter) =
          (.ok sims, st') → hitResult sims = none → env.apiKey = none →
        (call_perplexity_api cache env st model messages filter).trace.storeCalls
            = []
        ∧ (call_perplexity_api cache env st model messages filter).trace.remoteCalled
            = false)
    ∧ (cache.similarities st (mkCacheQuery model messages filter) =
          (.ok sims, st') → hitResult sims = none → env.apiKey = some k →
          env.responseJson = .error e →
        (call_perplexity_api cache env st model messages filter).trace.storeCalls
            = []
        ∧ (call_perplexity_api cache env st model messages filter).trace.remoteCalled
            = true)
    ∧ (cache.similarities st (mkCacheQuery model messages filter) =
          (.ok sims, st') → hitResult sims = none → env.apiKey = some k →
          env.responseJson = .ok j →
        (call_perplexity_api cache env st model messages filter).trace.storeCalls
            = [{ mkCacheQuery model messages filter with results := j }]
        ∧ (call_perplexity_api cache env st model messages filter).result
            = .ok j
        ∧ (call_perplexity_api cache env st model messages filter).state
            = (cache.store st'
                { mkCacheQuery model messages filter with results := j }).2
        ∧ (call_perplexity_api cache env st model messages filter).trace.remoteCalled
            = true) := by
  refine ⟨?_, ?_, ?_, ?_, ?_⟩
  · intro hsim he hs
    subst he
    simp [call_perplexity_api, hsim, hitResult, hs]
  · intro hsim
    simp [call_perplexity_api, hsim]
  · intro hsim hmiss hk
    simp [call_perplexity_api, hsim, hmiss, hk]
  · intro hsim hmiss hk hr
    simp [call_perplexity_api, hsim, hmiss, hk, hr]
  · intro hsim hmiss hk hr
    simp [call_perplexity_api, hsim, hmiss, hk, hr]

/-- C6, witness: a below-threshold cache whose store fails receives
exactly one store call carrying the fresh payload, and the gateway still
returns that payload successfully. -/
theorem c6_store_semantics_witness :
    (call_perplexity_api failingStoreCache ⟨some "k", .ok okPayload⟩ ()
        "m" (Json.arr []) none).trace.storeCalls =
      [{ mkCacheQuery "m" (Json.arr []) none with results := okPayload }]
    ∧ (call_perplexity_api failingStoreCache ⟨some "k", .ok okPayload⟩ ()
        "m" (Json.arr []) none).result = .ok okPayload := by
  have h := (c6_store_semantics failingStoreCache ⟨some "k", .ok okPayload⟩
    () () "m" (Json.arr []) none [] ⟨cachedEntry, 0⟩ [] "k" "e" "e"
    okPayload).2.2.2.2 rfl rfl rfl rfl
  exact ⟨h.1, h.2.1⟩

/-- C7, confirmed.  For every tool variant, executing with arguments that
lack the required field yields the validation error naming that field and
performs no remote call, no credential lookup and no cache access, the
cache state being returned untouched. -/
theorem c7_missing_required_argument {σ : Type} (cache : CacheImpl σ)
    (env : RemoteEnv) (st : σ) (args : Json) :
    ((args.get "query").bind Json.asStr = none →
      SearchTool.execute cache env st (some args) =
        ⟨.error "Missing or invalid query", st, emptyTrace, []⟩
      ∧ GetDocumentationTool.execute cache env st (some args) =
        ⟨.error "Missing or invalid query", st, emptyTrace, []⟩
      ∧ strContains "Missing or invalid query" "query")
    ∧ ((args.get "requirement").bind Json.asStr = none →
        FindApisTool.execute cache env st (some args) =
          ⟨.error "Missing or invalid requirement", st, emptyTrace, []⟩
        ∧ strContains "Missing or invalid requirement" "requirement")
    ∧ ((args.get "code").bind Json.asStr = none →
        CheckDeprecatedCodeTool.execute cache env st (some args) =
          ⟨.error "Missing or invalid code", st, emptyTrace, []⟩
        ∧ strContains "Missing or invalid code" "code")
    ∧ ((args.get "topic").bind Json.asStr = none →
        DeepResearchTool.execute env (some args) =
          ⟨.error "Missing or invalid research topic", ⟨false, false, none⟩⟩
        ∧ strContains "Missing or invalid research topic" "topic") := by
  refine ⟨?_, ?_, ?_, ?_⟩
  · intro h
    exact ⟨by simp [SearchTool.execute, h],
      by simp [GetDocumentationTool.execute, h], by decide⟩
  · intro h
    exact ⟨by simp [FindApisTool.execute, h], by decide⟩
  · intro h
    exact ⟨by simp [CheckDeprecatedCodeTool.execute, h], by decide⟩
  · intro h
    exact ⟨by simp [DeepResearchTool.execute, h], by decide⟩

/-- C7, witness: the empty argument object is missing every required
field, and all five tools reject it without touching cache or network. -/
theorem c7_missing_required_argument_witness :
    SearchTool.execute PassthroughSimilarityCache ⟨some "k", .ok okPayload⟩ ()
        (some (Json.obj [])) =
      ⟨.error "Missing or invalid query", (), emptyTrace, []⟩
    ∧ DeepResearchTool.execute ⟨some "k", .ok okPayload⟩
        (some (Json.obj [])) =
      ⟨.error "Missing or invalid research topic", ⟨false, false, none⟩⟩ := by
  have h := c7_missing_required_argument PassthroughSimilarityCache
    ⟨some "k", .ok okPayload⟩ () (Json.obj [])
  exact ⟨(h.1 rfl).1, (h.2.2.2 rfl).1⟩

/-- C8, confirmed.  The deep-research outbound request body always carries
temperature 0.2, max_tokens 4000 and search_iterations 10; its
search_recency_filter is week when the time constraint contains recent or
latest, month when it contains year but neither recent nor latest, and
absent otherwise; and the executed tool sends exactly this body. -/
theorem c8_deep_research_request_parameters (topic depth focus
    time_constraint citation_style : String) :
    (deepResearchRequestBody topic depth focus time_constraint
        citation_style).get "temperature" = some (.num 0.2)
    ∧ (deepResearchRequestBody topic depth focus time_constraint
        citation_style).get "max_tokens" = some (.num 4000)
    ∧ (deepResearchRequestBody topic depth focus time_constraint
        citation_style).get "search_iterations" = some (.num 10)
    ∧ (deepResearchRequestBody topic depth focus time_constraint
        citation_style).get "model" = some (.str "sonar-deep-research")
    ∧ (strContains time_constraint "recent" ∨
        strContains time_constraint "latest" →
        (deepResearchRequestBody topic depth focus time_constraint
          citation_style).get "search_recency_filter" = some (.str "week"))
    ∧ (¬ (strContains time_constraint "recent" ∨
          strContains time_constraint "latest") →
        strContains time_constraint "year" →
        (deepResearchRequestBody topic depth focus time_constraint
          citation_style).get "search_recency_filter" = some (.str "month"))
    ∧ (¬ (strContains time_constraint "recent" ∨
          strContains time_constraint "latest") →
        ¬ strContains time_constraint "year" →
        (deepResearchRequestBody topic depth focus time_constraint
          citation_style).get "search_recency_filter" = none)
    ∧ (∀ (env : RemoteEnv) (args : Json) (k : String),
        (args.get "topic").bind Json.asStr = some topic →
        env.apiKey = some k →
        (DeepResearchTool.execute env (some args)).trace.requestBody =
          some (deepResearchRequestBody topic
            (((args.get "depth").bind Json.asStr).getD "comprehensive")
            (((args.get "focus").bind Json.asStr).getD "")
            (((args.get "time_constraint").bind Json.asStr).getD "")
            (((args.get "citation_style").bind Json.asStr).getD "apa"))) := by
  refine ⟨?_, ?_, ?_, ?_, ?_, ?_, ?_, ?_⟩
  · simp only [deepResearchRequestBody]
    split
    · rfl
    · split <;> rfl
  · simp only [deepResearchRequestBody]
    split
    · rfl
    · split <;> rfl
  · simp only [deepResearchRequestBody]
    split
    · rfl
    · split <;> rfl
  · simp only [deepResearchRequestBody]
    split
    · rfl
    · split <;> rfl
  · intro h
    simp only [deepResearchRequestBody]
    rw [if_pos h]
    rfl
  · intro h1 h2
    simp only [deepResearchRequestBody]
    rw [if_neg h1, if_pos h2]
    rfl
  · intro h1 h2
    simp only [deepResearchRequestBody]
    rw [if_neg h1, if_neg h2]
    rfl
  · intro env args k htopic hk
    cases hr : env.responseJson with
    | error e => simp [DeepResearchTool.execute, htopic, hk, hr]
    | ok j =>
      cases hf : format_deep_research_response j
          (((args.get "citation_style").bind Json.asStr).getD "apa") with
      | error e => simp [DeepResearchTool.execute, htopic, hk, hr, hf]
      | ok content => simp [DeepResearchTool.execute, htopic, hk, hr, hf]

/-- C8, witness: a latest-flavoured time constraint selects the week
filter, the empty one leaves the filter unset, and a concrete execution
carries the constructed body. -/
theorem c8_deep_research_request_parameters_witness :
    (deepResearchRequestBody "T" "comprehensive" "" "the latest developments"
        "apa").get "search_recency_filter" = some (.str "week")
    ∧ (deepResearchRequestBody "T" "comprehensive" "" "" "apa").get
        "search_recency_filter" = none
    ∧ (DeepResearchTool.execute ⟨some "k", .ok malformedPayload⟩
        (some (Json.obj [("topic", .str "T")]))).trace.requestBody =
      some (deepResearchRequestBody "T" "comprehensive" "" "" "apa") := by
  refine ⟨?_, ?_, ?_⟩
  · exact (c8_deep_research_request_parameters "T" "comprehensive" ""
      "the latest developments" "apa").2.2.2.2.1 (Or.inr (by decide))
  · exact (c8_deep_research_request_parameters "T" "comprehensive" ""
      "" "apa").2.2.2.2.2.2.1 (by decide) (by decide)
  · exact (c8_deep_research_request_parameters "T" "comprehensive" ""
      "" "apa").2.2.2.2.2.2.2 ⟨some "k", .ok malformedPayload⟩
      (Json.obj [("topic", .str "T")]) "k" rfl rfl

/-- C9, confirmed.  The passthrough cache stores nothing and returns the
empty similarity list, and the cache-aware gateway instantiated with it is
observationally equivalent to the cache-free lib.rs gateway: same result,
same credential lookup, same remote-call behaviour and same outbound
request body, for every environment and request. -/
theorem c9_passthrough_equivalence (env : RemoteEnv) (q : CacheQuery)
    (model : String) (messages : Json) (filter : Option String) :
    PassthroughSimilarityCache.store () q = (.ok (), ())
    ∧ PassthroughSimilarityCache.similarities () q = (.ok [], ())
    ∧ (call_perplexity_api PassthroughSimilarityCache env () model messages
        filter).result = (libCallPerplexityApi env model messages filter).1
    ∧ (call_perplexity_api PassthroughSimilarityCache env () model messages
        filter).trace.credentialLookedUp =
      (libCallPerplexityApi env model messages filter).2.credentialLookedUp
    ∧ (call_perplexity_api PassthroughSimilarityCache env () model messages
        filter).trace.remoteCalled =
      (libCallPerplexityApi env model messages filter).2.remoteCalled
    ∧ (call_perplexity_api PassthroughSimilarityCache env () model messages
        filter).trace.requestBody =
      (libCallPerplexityApi env model messages filter).2.requestBody := by
  refine ⟨rfl, rfl, ?_, ?_, ?_, ?_⟩ <;>
    cases hk : env.apiKey <;>
      cases hr : env.responseJson <;>
        simp [call_perplexity_api, libCallPerplexityApi,
          PassthroughSimilarityCache, hitResult, hk, hr]

/-- C10, confirmed.  Whenever the gateway reaches the remote call and the
response parses as JSON, the parsed payload is stored in the similarity
cache with no validation of its shape; and any stored entry returned by a
later similarity lookup with a score above the threshold is served as the
result of that later call without a remote call, whatever its payload. -/
theorem c10_unvalidated_caching {σ : Type} (cache : CacheImpl σ)
    (env : RemoteEnv) (st st' : σ) (model : String) (messages : Json)
    (filter : Option String) (sims : List Similarity) (k : String) (j : Json)
    (hsim : cache.similarities st (mkCacheQuery model messages filter) =
      (.ok sims, st'))
    (hmiss : hitResult sims = none)
    (hk : env.apiKey = some k)
    (hresp : env.responseJson = .ok j) :
    ((call_perplexity_api cache env st model messages filter).trace.storeCalls
        = [{ mkCacheQuery model messages filter with results := j }]
      ∧ (call_perplexity_api cache env st model messages filter).result
        = .ok j)
    ∧ (∀ {σ₂ : Type} (cache₂ : CacheImpl σ₂) (env₂ : RemoteEnv) (st₂ st₂' : σ₂)
        (model₂ : String) (messages₂ : Json) (filter₂ : Option String)
        (cq : CacheQuery) (sc : ℚ) (rest : List Similarity),
        cache₂.similarities st₂ (mkCacheQuery model₂ messages₂ filter₂) =
          (.ok (⟨cq, sc⟩ :: rest), st₂') →
        sc > 0.95 →
        call_perplexity_api cache₂ env₂ st₂ model₂ messages₂ filter₂ =
          ⟨.ok cq.results, st₂', ⟨true, false, false, none, []⟩⟩) := by
  constructor
  · constructor <;> simp [call_perplexity_api, hsim, hmiss, hk, hresp]
  · intro σ₂ cache₂ env₂ st₂ st₂' model₂ messages₂ filter₂ cq sc rest hsim₂ hsc
    simp [call_perplexity_api, hsim₂, hitResult, hsc]

/-- C10, witness: a payload without the content field is stored by a first
call, and a second call whose cache returns that stored entry at score
0.96 serves the malformed payload from the cache without a remote call. -/
theorem c10_unvalidated_caching_witness :
    (call_perplexity_api (constCache []) ⟨some "k", .ok malformedPayload⟩ ()
        "m" (Json.arr []) none).trace.storeCalls =
      [{ mkCacheQuery "m" (Json.arr []) none with results := malformedPayload }]
    ∧ (call_perplexity_api
        (constCache
          [⟨{ mkCacheQuery "m" (Json.arr []) none with
                results := malformedPayload }, 0.96⟩])
        ⟨none, .error "offline"⟩ () "m" (Json.arr []) none).result =
      .ok malformedPayload := by
  have h := c10_unvalidated_caching (constCache [])
    ⟨some "k", .ok malformedPayload⟩ () () "m" (Json.arr []) none [] "k"
    malformedPayload rfl rfl rfl rfl
  refine ⟨h.1.1, ?_⟩
  have h2 := h.2
    (constCache
      [⟨{ mkCacheQuery "m" (Json.arr []) none with
            results := malformedPayload }, 0.96⟩])
    ⟨none, .error "offline"⟩ () () "m" (Json.arr []) none
    { mkCacheQuery "m" (Json.arr []) none with results := malformedPayload }
    0.96 [] rfl (by norm_num)
  exact (congrArg GatewayResult.result h2).trans rfl

/-- C4, witness: leaving detail_level out produces exactly the same
execution as passing normal explicitly, on concrete arguments. -/
theorem c4_stated_defaults_witness :
    SearchTool.execute PassthroughSimilarityCache ⟨some "k", .ok okPayload⟩ ()
        (some (Json.obj [("query", .str "q")])) =
      SearchTool.execute PassthroughSimilarityCache ⟨some "k", .ok okPayload⟩
        ()
        (some (Json.obj [("query", .str "q"), ("detail_level", .str "normal")]))
    ∧ strContains (deepResearchPrompt "T" "comprehensive" "" "" "apa")
        "Cite all sources using apa format" := by
  constructor
  · exact (c4_stated_defaults PassthroughSimilarityCache
      ⟨some "k", .ok okPayload⟩ () (Json.obj [("query", .str "q")])
      (Json.obj [("query", .str "q"), ("detail_level", .str "normal")])
      "T" "" "").1 rfl rfl rfl rfl
  · exact (c4_stated_defaults PassthroughSimilarityCache
      ⟨some "k", .ok okPayload⟩ () (Json.obj []) (Json.obj [])
      "T" "" "").2.2.2
